import Mathlib

/-!
Verification of the `mcp-calendar` tool (`src/mcp_calendar/calendar.py`).

The program is a single MCP tool, `create_calendar_event`, that
  1. obtains a Google Calendar service via `get_calendar_service` (OAuth
     credential load / refresh / interactive flow, with the token file
     rewritten whenever a credential is newly obtained),
  2. resolves natural-language time strings via `parse_natural_datetime`
     (the external `parsedatetime` library followed by
     `datetime.datetime(*time_struct[:6])`),
  3. builds an event dict and submits it with
     `service.events().insert(calendarId='primary', body=event).execute()`,
  4. converts every exception into a returned string
     (`except HttpError` / `except Exception`).

External collaborators (the Google client libraries, the `parsedatetime`
parser's ambient wall clock, the environment variables) are passed in
explicitly as oracle values, so each run of the Python function corresponds
to one choice of environment here.  Python exceptions are modelled with
`Except`: an `Except.error` left standing at the tool boundary would be an
exception propagating to the caller.
-/

namespace McpCalendar

/-- A Python exception as observed by the handlers at the tool boundary:
`HttpError` raised by the Google API client, or any other `Exception`,
each carrying its rendered message (`str(e)`). -/
inductive PyErr where
  | http (msg : String)
  | other (msg : String)
deriving DecidableEq, Repr

/-- Gregorian leap-year test, as used by Python's `datetime` module. -/
def isLeap (y : Nat) : Bool :=
  y % 4 == 0 && (y % 100 != 0 || y % 400 == 0)

/-- Number of days in month `m` of year `y` (Python `calendar.monthrange`
semantics, used by `datetime` for range checks and date arithmetic). -/
def daysInMonth (y m : Nat) : Nat :=
  if m = 2 then (if isLeap y then 29 else 28)
  else if m = 4 ∨ m = 6 ∨ m = 9 ∨ m = 11 then 30
  else 31

/-- A Python `datetime.datetime` value (naive, as the code builds them). -/
structure DateTime where
  year : Nat
  month : Nat
  day : Nat
  hour : Nat
  minute : Nat
  second : Nat
  microsecond : Nat
deriving DecidableEq, Repr

/-- The constructor call `datetime.datetime(y, mo, d, h, mi, s)` with its
range checks (`MINYEAR = 1`, `MAXYEAR = 9999`); out-of-range arguments raise
`ValueError`.  The omitted `microsecond` argument defaults to `0`. -/
def mkDatetime (y mo d h mi s : Nat) : Except PyErr DateTime :=
  if 1 ≤ y ∧ y ≤ 9999 ∧ 1 ≤ mo ∧ mo ≤ 12 ∧ 1 ≤ d ∧ d ≤ daysInMonth y mo
      ∧ h ≤ 23 ∧ mi ≤ 59 ∧ s ≤ 59 then
    .ok ⟨y, mo, d, h, mi, s, 0⟩
  else
    .error (.other "ValueError: argument out of range")

/-- The calendar day after `(y, m, d)` in the proleptic Gregorian calendar. -/
def nextDay (y m d : Nat) : Nat × Nat × Nat :=
  if d < daysInMonth y m then (y, m, d + 1)
  else if m < 12 then (y, m + 1, 1)
  else (y + 1, 1, 1)

/-- `dt + datetime.timedelta(hours=1)`.  Python raises `OverflowError` when
the result would pass `datetime.max` (end of year 9999). -/
def addHour (dt : DateTime) : Except PyErr DateTime :=
  if dt.hour < 23 then .ok { dt with hour := dt.hour + 1 }
  else
    let (y, m, d) := nextDay dt.year dt.month dt.day
    if y ≤ 9999 then .ok { dt with year := y, month := m, day := d, hour := 0 }
    else .error (.other "OverflowError: date value out of range")

/-- Decimal rendering of `n` left-padded with zeros to `width` digits. -/
def padNum (width n : Nat) : String :=
  let s := toString n
  String.mk (List.replicate (width - s.length) '0') ++ s

/-- Python `datetime.isoformat()`: `YYYY-MM-DDTHH:MM:SS`, with a
`.ffffff` suffix only when the microsecond component is nonzero. -/
def DateTime.isoformat (dt : DateTime) : String :=
  padNum 4 dt.year ++ "-" ++ padNum 2 dt.month ++ "-" ++ padNum 2 dt.day ++ "T"
    ++ padNum 2 dt.hour ++ ":" ++ padNum 2 dt.minute ++ ":" ++ padNum 2 dt.second
    ++ (if dt.microsecond = 0 then "" else "." ++ padNum 6 dt.microsecond)

/-- The first six fields of the `time.struct_time` returned by
`parsedatetime.Calendar.parse`; the code consumes only `time_struct[:6]`,
so the trailing fields (weekday, yearday, dst) are not modelled. -/
structure TimeStruct where
  tm_year : Nat
  tm_mon : Nat
  tm_mday : Nat
  tm_hour : Nat
  tm_min : Nat
  tm_sec : Nat
deriving DecidableEq, Repr

/-- `parse_natural_datetime(text)` (lines 54-58): the external call
`parsedatetime.Calendar().parse(text)` is abstracted as the oracle `pdt`
(its result under the ambient wall clock); the parse status is discarded
and `datetime.datetime(*time_struct[:6])` is built from the struct. -/
def parse_natural_datetime (pdt : String → TimeStruct × Nat) (text : String) :
    Except PyErr DateTime :=
  match pdt text with
  | (time_struct, _parse_status) =>
    mkDatetime time_struct.tm_year time_struct.tm_mon time_struct.tm_mday
      time_struct.tm_hour time_struct.tm_min time_struct.tm_sec

/-- Modelled from the spec: the external `parsedatetime` library (a
third-party collaborator, not part of this repository).  Per the spec,
relative phrases are interpreted against a source time that defaults to the
current wall clock, absolute expressions are parsed as written, and
unrecognized text falls back to the source time with parse status 0.  The
model realizes this on two representative phrases: the relative
`"tomorrow at 2pm"` (source date + 1 day at 14:00:00) and the absolute
`"2024-01-15 10:00"`. -/
def pdtModel (text : String) (now : DateTime) : TimeStruct × Nat :=
  if text = "tomorrow at 2pm" then
    let (y, m, d) := nextDay now.year now.month now.day
    (⟨y, m, d, 14, 0, 0⟩, 3)
  else if text = "2024-01-15 10:00" then
    (⟨2024, 1, 15, 10, 0, 0⟩, 3)
  else
    (⟨now.year, now.month, now.day, now.hour, now.minute, now.second⟩, 0)

/-- `parse_natural_datetime` as it actually runs: the library under the
wall-clock instant `now`. -/
def resolveAt (now : DateTime) (text : String) : Except PyErr DateTime :=
  parse_natural_datetime (fun t => pdtModel t now) text

/-- A JSON-like value of the event dict sent to the calendar API. -/
inductive JVal where
  | str (s : String)
  | arr (xs : List JVal)
  | obj (fields : List (String × JVal))

/-- Dictionary lookup on the association-list model of a Python dict. -/
def evLookup (ev : List (String × JVal)) (k : String) : Option JVal :=
  (ev.find? (fun p => p.1 == k)).map (fun p => p.2)

/-- Python truthiness of an `Optional[str]` argument: `None` and `""` are
falsy, every other string is truthy. -/
def strTruthy : Option String → Bool
  | none => false
  | some s => !s.isEmpty

/-- Python truthiness of an `Optional[List[str]]` argument: `None` and `[]`
are falsy, every nonempty list is truthy. -/
def listTruthy : Option (List String) → Bool
  | none => false
  | some l => !l.isEmpty

/-- The arguments of one `create_calendar_event` invocation (line 61-67). -/
structure ToolArgs where
  summary : String
  start_time : String
  end_time : Option String
  description : Option String
  loc : Option String
  attendees : Option (List String)

/-- The ambient behavior of one invocation: the outcome of
`get_calendar_service()` (whose collaborators may raise), the external
date parser under the current wall clock, the outcome of
`service.events().insert(...).execute()` — reduced to the `id` field of the
response, the only part the code reads (`None` when absent) — and the
`CALENDAR_TIMEZONE` environment variable (`none` when unset). -/
structure ToolEnv where
  serviceOutcome : Except PyErr Unit
  pdt : String → TimeStruct × Nat
  insertOutcome : List (String × JVal) → Except PyErr (Option String)
  calendarTimezone : Option String

/-- Lines 95-113: the event dict, built in insertion order — `summary`,
`start`, `end` always; `description`, `location`, `attendees` appended only
when the corresponding argument is truthy, attendees mapped element-wise to
`{'email': email}`. -/
def buildEvent (summary : String) (start_datetime end_datetime : DateTime)
    (timezone : String) (description loc : Option String)
    (attendees : Option (List String)) : List (String × JVal) :=
  [("summary", JVal.str summary),
   ("start", JVal.obj [("dateTime", JVal.str start_datetime.isoformat),
                       ("timeZone", JVal.str timezone)]),
   ("end", JVal.obj [("dateTime", JVal.str end_datetime.isoformat),
                     ("timeZone", JVal.str timezone)])]
  ++ (if strTruthy description then
        [("description", JVal.str (description.getD ""))] else [])
  ++ (if strTruthy loc then
        [("location", JVal.str (loc.getD ""))] else [])
  ++ (if listTruthy attendees then
        [("attendees", JVal.arr ((attendees.getD []).map
            (fun email => JVal.obj [("email", JVal.str email)])))]
      else [])

/-- Lines 87-113: resolve the start, default the end to start + 1 hour when
`end_time` is falsy (else resolve it), read `CALENDAR_TIMEZONE` with default
`"UTC"`, and build the event dict — the part of the `try` block between the
service acquisition and the insert call. -/
def submittedEvent (env : ToolEnv) (a : ToolArgs) :
    Except PyErr (List (String × JVal)) :=
  match parse_natural_datetime env.pdt a.start_time with
  | .error e => .error e
  | .ok start_datetime =>
    match (if !strTruthy a.end_time then addHour start_datetime
           else parse_natural_datetime env.pdt (a.end_time.getD "")) with
    | .error e => .error e
    | .ok end_datetime =>
      let timezone := env.calendarTimezone.getD "UTC"
      .ok (buildEvent a.summary start_datetime end_datetime timezone
        a.description a.loc a.attendees)

/-- Rendering of `event.get('id')` inside the f-string of line 117:
`None` prints as `"None"`. -/
def pyStrOpt : Option String → String
  | none => "None"
  | some s => s

/-- The `try` block of `create_calendar_event` (lines 83-117): acquire the
service, build the event, submit it, and produce the success message. -/
def createEventBody (env : ToolEnv) (a : ToolArgs) : Except PyErr String :=
  match env.serviceOutcome with
  | .error e => .error e
  | .ok _service =>
    match submittedEvent env a with
    | .error e => .error e
    | .ok event =>
      match env.insertOutcome event with
      | .error e => .error e
      | .ok eventId =>
        .ok ("Event created successfully! Event ID: " ++ pyStrOpt eventId)

/-- The `except` clauses of lines 119-122: `HttpError` and `Exception` are
both converted to returned strings. -/
def toolBoundary : Except PyErr String → Except PyErr String
  | .ok s => .ok s
  | .error (.http msg) => .ok ("An error occurred: " ++ msg)
  | .error (.other msg) => .ok ("An unexpected error occurred: " ++ msg)

/-- `create_calendar_event` (lines 60-122).  A result of `Except.error`
would be an exception propagating past the tool boundary. -/
def create_calendar_event (env : ToolEnv) (a : ToolArgs) :
    Except PyErr String :=
  toolBoundary (createEventBody env a)

/-- A loaded OAuth credential: an identifying token payload plus the
`valid`, `expired` and `refresh_token` attributes the code branches on
(`refresh_token` as a boolean: whether a refresh token is present). -/
structure Creds where
  token : String
  valid : Bool
  expired : Bool
  refresh_token : Bool
deriving DecidableEq, Repr

/-- The ambient behavior of one `get_calendar_service()` call: the parsed
content of the token file (`none` when the file does not exist), the result
of `creds.refresh(Request())` as a function of the loaded credential, and
the credential produced by the interactive `InstalledAppFlow` run. -/
structure AuthEnv where
  tokenFileCreds : Option Creds
  refreshed : Creds → Creds
  interactive : Creds

/-- `get_calendar_service` (lines 23-52), returning the credential the
service is built with and the credential written back to the token file
(`none` when the write on lines 49-50 is not reached).  The write happens
exactly when no valid credential was loaded: after a refresh when the loaded
credential is expired with a refresh token, otherwise after the interactive
flow. -/
def get_calendar_service (env : AuthEnv) : Creds × Option Creds :=
  match env.tokenFileCreds with
  | some creds =>
    if creds.valid then (creds, none)
    else
      let newCreds :=
        if creds.expired && creds.refresh_token then env.refreshed creds
        else env.interactive
      (newCreds, some newCreds)
  | none =>
    let newCreds := env.interactive
    (newCreds, some newCreds)

/-! ### Concrete fixtures used by witnesses and counterexamples -/

/-- A fixed wall-clock instant for concrete runs. -/
def nowW : DateTime := ⟨2024, 1, 15, 9, 0, 0, 0⟩

/-- A concrete healthy environment: service acquired, parser under `nowW`,
insert succeeds with id `"evt123"`, `CALENDAR_TIMEZONE` unset. -/
def envW : ToolEnv :=
  ⟨.ok (), fun t => pdtModel t nowW, fun _ => .ok (some "evt123"), none⟩

/-- A concrete invocation: required arguments only. -/
def aW : ToolArgs := ⟨"Team Sync", "2024-01-15 10:00", none, none, none, none⟩

/-- The event dict `envW`/`aW` produces. -/
def evW : List (String × JVal) :=
  buildEvent "Team Sync" ⟨2024, 1, 15, 10, 0, 0, 0⟩ ⟨2024, 1, 15, 11, 0, 0, 0⟩
    "UTC" none none none

/-- A concrete invocation with two attendees (the spec's example). -/
def aAtt : ToolArgs :=
  ⟨"Team Sync", "2024-01-15 10:00", none, none, none,
   some ["a@x.com", "b@x.com"]⟩

/-- The event dict `envW`/`aAtt` produces. -/
def evAtt : List (String × JVal) :=
  buildEvent "Team Sync" ⟨2024, 1, 15, 10, 0, 0, 0⟩ ⟨2024, 1, 15, 11, 0, 0, 0⟩
    "UTC" none none (some ["a@x.com", "b@x.com"])

/-- The event dict produced when `attendees=[]` is supplied. -/
def evEmptyAtt : List (String × JVal) :=
  buildEvent "Team Sync" ⟨2024, 1, 15, 10, 0, 0, 0⟩ ⟨2024, 1, 15, 11, 0, 0, 0⟩
    "UTC" none none (some [])

/-- An environment whose credential step raises `HttpError("quota exceeded")`. -/
def envQuota : ToolEnv :=
  ⟨.error (.http "quota exceeded"), fun t => pdtModel t nowW,
   fun _ => .ok (some "evt123"), none⟩

/-- An environment with `CALENDAR_TIMEZONE` set. -/
def envTz : ToolEnv :=
  ⟨.ok (), fun t => pdtModel t nowW, fun _ => .ok (some "evt123"),
   some "Australia/Sydney"⟩

/-- The event dict `envTz`/`aW` produces. -/
def evTz : List (String × JVal) :=
  buildEvent "Team Sync" ⟨2024, 1, 15, 10, 0, 0, 0⟩ ⟨2024, 1, 15, 11, 0, 0, 0⟩
    "Australia/Sydney" none none none

/-- An expired stored credential holding a refresh token. -/
def credOld : Creds := ⟨"tok-old", false, true, true⟩

/-- A concrete credential environment: `credOld` on disk, a refresh that
revalidates it, and a distinct interactive-flow credential. -/
def authEnvW : AuthEnv :=
  ⟨some credOld,
   fun c => ⟨c.token ++ "-refreshed", true, false, c.refresh_token⟩,
   ⟨"tok-interactive", true, false, true⟩⟩

/-! ### Helper lemmas -/

/-- Successful event construction, characterized: a start parse, an end
(defaulted or parsed), and the built dict. -/
theorem submittedEvent_ok_iff (env : ToolEnv) (a : ToolArgs)
    (ev : List (String × JVal)) :
    submittedEvent env a = .ok ev ↔
      ∃ sdt edt, parse_natural_datetime env.pdt a.start_time = .ok sdt ∧
        (if !strTruthy a.end_time then addHour sdt
         else parse_natural_datetime env.pdt (a.end_time.getD "")) = .ok edt ∧
        ev = buildEvent a.summary sdt edt (env.calendarTimezone.getD "UTC")
          a.description a.loc a.attendees := by
  unfold submittedEvent
  constructor
  · intro h
    split at h
    · exact absurd h (by simp)
    · rename_i sdt hs
      split at h
      · exact absurd h (by simp)
      · rename_i edt he
        refine ⟨sdt, edt, hs, he, ?_⟩
        injection h with h
        exact h.symm
  · rintro ⟨sdt, edt, hs, he, rfl⟩
    simp only [Bool.not_eq_true'] at he
    simp [hs, he]

theorem evLookup_buildEvent_start (su : String) (sdt edt : DateTime)
    (tz : String) (de lo : Option String) (att : Option (List String)) :
    evLookup (buildEvent su sdt edt tz de lo att) "start" =
      some (JVal.obj [("dateTime", JVal.str sdt.isoformat),
                      ("timeZone", JVal.str tz)]) := by
  unfold buildEvent
  split <;> split <;> split <;> simp [evLookup, List.find?]

theorem evLookup_buildEvent_end (su : String) (sdt edt : DateTime)
    (tz : String) (de lo : Option String) (att : Option (List String)) :
    evLookup (buildEvent su sdt edt tz de lo att) "end" =
      some (JVal.obj [("dateTime", JVal.str edt.isoformat),
                      ("timeZone", JVal.str tz)]) := by
  unfold buildEvent
  split <;> split <;> split <;> simp [evLookup, List.find?]

theorem evLookup_buildEvent_description_none (su : String) (sdt edt : DateTime)
    (tz : String) (lo : Option String) (att : Option (List String)) :
    evLookup (buildEvent su sdt edt tz none lo att) "description" = none := by
  unfold buildEvent
  split <;> split <;> split <;> simp_all [evLookup, List.find?, strTruthy]

theorem evLookup_buildEvent_location_none (su : String) (sdt edt : DateTime)
    (tz : String) (de : Option String) (att : Option (List String)) :
    evLookup (buildEvent su sdt edt tz de none att) "location" = none := by
  unfold buildEvent
  split <;> split <;> split <;> simp_all [evLookup, List.find?, strTruthy]

theorem evLookup_buildEvent_attendees_none (su : String) (sdt edt : DateTime)
    (tz : String) (de lo : Option String) :
    evLookup (buildEvent su sdt edt tz de lo none) "attendees" = none := by
  unfold buildEvent
  split <;> split <;> split <;> simp_all [evLookup, List.find?, listTruthy]

theorem evLookup_buildEvent_attendees_some (su : String) (sdt edt : DateTime)
    (tz : String) (de lo : Option String) (emails : List String)
    (hne : emails ≠ []) :
    evLookup (buildEvent su sdt edt tz de lo (some emails)) "attendees" =
      some (JVal.arr (emails.map
        (fun email => JVal.obj [("email", JVal.str email)]))) := by
  have ht : listTruthy (some emails) = true := by
    cases emails with
    | nil => exact absurd rfl hne
    | cons a l => rfl
  unfold buildEvent
  rw [ht]
  split <;> split <;> simp [evLookup, List.find?]

/-! ### Claims -/

/-- C1: for every invocation of `create_calendar_event` — whatever the
inputs and whatever exceptions the credential provider, the time resolver,
or the event submitter raise — the call returns a string (success or
failure message) and never lets an exception propagate past the tool
boundary. -/
theorem create_calendar_event_never_raises (env : ToolEnv) (a : ToolArgs) :
    ∃ s : String, create_calendar_event env a = .ok s := by
  unfold create_calendar_event
  cases h : createEventBody env a with
  | ok s => exact ⟨s, rfl⟩
  | error e =>
    cases e with
    | http m => exact ⟨"An error occurred: " ++ m, rfl⟩
    | other m => exact ⟨"An unexpected error occurred: " ++ m, rfl⟩

/-- C6: whenever a step of `create_calendar_event` raises an `HttpError`
with message `m`, the tool returns the string `"An error occurred: " ++ m`
— a string containing "An error occurred" and embedding the service error's
text — and does not raise. -/
theorem create_calendar_event_http_error_message (env : ToolEnv)
    (a : ToolArgs) (m : String)
    (h : createEventBody env a = .error (.http m)) :
    create_calendar_event env a = .ok ("An error occurred: " ++ m) := by
  unfold create_calendar_event
  rw [h]
  rfl

/-- Witness for C6: a credential provider raising `HttpError` with message
"quota exceeded" yields the string "An error occurred: quota exceeded". -/
theorem create_calendar_event_http_error_message_witness :
    create_calendar_event envQuota aW =
      .ok ("An error occurred: " ++ "quota exceeded") :=
  create_calendar_event_http_error_message envQuota aW "quota exceeded" rfl

/-- C2: when `end_time` is not supplied, the submitted end is the resolved
start plus exactly one hour (`addHour`), and start and end carry the same
timezone. -/
theorem submittedEvent_default_end_plus_one_hour (env : ToolEnv)
    (a : ToolArgs) (ev : List (String × JVal)) (hend : a.end_time = none)
    (hok : submittedEvent env a = .ok ev) :
    ∃ sdt edt, parse_natural_datetime env.pdt a.start_time = .ok sdt ∧
      addHour sdt = .ok edt ∧
      evLookup ev "start" = some (JVal.obj
        [("dateTime", JVal.str sdt.isoformat),
         ("timeZone", JVal.str (env.calendarTimezone.getD "UTC"))]) ∧
      evLookup ev "end" = some (JVal.obj
        [("dateTime", JVal.str edt.isoformat),
         ("timeZone", JVal.str (env.calendarTimezone.getD "UTC"))]) := by
  obtain ⟨sdt, edt, hs, he, rfl⟩ := (submittedEvent_ok_iff env a ev).1 hok
  rw [hend] at he
  simp only [strTruthy, Bool.not_false, if_true] at he
  exact ⟨sdt, edt, hs, he, evLookup_buildEvent_start _ _ _ _ _ _ _,
    evLookup_buildEvent_end _ _ _ _ _ _ _⟩

/-- Witness for C2: the concrete run `envW`/`aW` (no `end_time`) submits
start 2024-01-15T10:00:00 and end 2024-01-15T11:00:00, same timezone. -/
theorem submittedEvent_default_end_plus_one_hour_witness :
    ∃ sdt edt, parse_natural_datetime envW.pdt aW.start_time = .ok sdt ∧
      addHour sdt = .ok edt ∧
      evLookup evW "start" = some (JVal.obj
        [("dateTime", JVal.str sdt.isoformat),
         ("timeZone", JVal.str (envW.calendarTimezone.getD "UTC"))]) ∧
      evLookup evW "end" = some (JVal.obj
        [("dateTime", JVal.str edt.isoformat),
         ("timeZone", JVal.str (envW.calendarTimezone.getD "UTC"))]) :=
  submittedEvent_default_end_plus_one_hour envW aW evW rfl rfl

/-- C3: the submitted record contains a `description` / `location` /
`attendees` key only when the corresponding argument is supplied: an absent
argument produces no key. -/
theorem submittedEvent_omits_absent_optionals (env : ToolEnv) (a : ToolArgs)
    (ev : List (String × JVal)) (hok : submittedEvent env a = .ok ev) :
    (a.description = none → evLookup ev "description" = none) ∧
    (a.loc = none → evLookup ev "location" = none) ∧
    (a.attendees = none → evLookup ev "attendees" = none) := by
  obtain ⟨sdt, edt, hs, he, rfl⟩ := (submittedEvent_ok_iff env a ev).1 hok
  refine ⟨fun hd => ?_, fun hl => ?_, fun ha => ?_⟩
  · rw [hd]
    exact evLookup_buildEvent_description_none _ _ _ _ _ _
  · rw [hl]
    exact evLookup_buildEvent_location_none _ _ _ _ _ _
  · rw [ha]
    exact evLookup_buildEvent_attendees_none _ _ _ _ _ _

/-- Witness for C3: the concrete run `envW`/`aW` (all optionals absent)
submits a record with none of the three optional keys. -/
theorem submittedEvent_omits_absent_optionals_witness :
    evLookup evW "description" = none ∧ evLookup evW "location" = none ∧
      evLookup evW "attendees" = none :=
  ⟨(submittedEvent_omits_absent_optionals envW aW evW rfl).1 rfl,
   (submittedEvent_omits_absent_optionals envW aW evW rfl).2.1 rfl,
   (submittedEvent_omits_absent_optionals envW aW evW rfl).2.2 rfl⟩

/-- Counterexample to C4 as stated: with the supplied attendees list `[]`
the submitted record has no `attendees` field at all (the code tests the
list for truthiness), rather than the element-wise image `[]`. -/
theorem submittedEvent_empty_attendees_counterexample :
    submittedEvent envW
        ⟨"Team Sync", "2024-01-15 10:00", none, none, none, some []⟩ =
      .ok evEmptyAtt ∧
    evLookup evEmptyAtt "attendees" = none :=
  ⟨rfl, rfl⟩

/-- C4 (amended: for every nonempty supplied attendees list): the submitted
`attendees` field is the element-wise, order-preserving image of each email
`e` under `fun e => {"email": e}`. -/
theorem submittedEvent_attendees_elementwise (env : ToolEnv) (a : ToolArgs)
    (ev : List (String × JVal)) (emails : List String)
    (hatt : a.attendees = some emails) (hne : emails ≠ [])
    (hok : submittedEvent env a = .ok ev) :
    evLookup ev "attendees" = some (JVal.arr (emails.map
      (fun email => JVal.obj [("email", JVal.str email)]))) := by
  obtain ⟨sdt, edt, hs, he, rfl⟩ := (submittedEvent_ok_iff env a ev).1 hok
  rw [hatt]
  exact evLookup_buildEvent_attendees_some _ _ _ _ _ _ _ hne

/-- Witness for C4 (amended): attendees `["a@x.com", "b@x.com"]` produce
`[{"email": "a@x.com"}, {"email": "b@x.com"}]`. -/
theorem submittedEvent_attendees_elementwise_witness :
    evLookup evAtt "attendees" = some (JVal.arr (["a@x.com", "b@x.com"].map
      (fun email => JVal.obj [("email", JVal.str email)]))) :=
  submittedEvent_attendees_elementwise envW aAtt evAtt
    ["a@x.com", "b@x.com"] rfl (by simp) rfl

/-- Counterexample to C5 as stated: `parse_natural_datetime` calls the
external parser under the ambient wall clock, so the same literal text
"tomorrow at 2pm" resolves to two different timestamps when the two calls
happen on different days. -/
theorem resolve_now_dependence_counterexample :
    resolveAt ⟨2024, 1, 15, 9, 0, 0, 0⟩ "tomorrow at 2pm" =
      .ok ⟨2024, 1, 16, 14, 0, 0, 0⟩ ∧
    resolveAt ⟨2024, 1, 16, 9, 0, 0, 0⟩ "tomorrow at 2pm" =
      .ok ⟨2024, 1, 17, 14, 0, 0, 0⟩ ∧
    (⟨2024, 1, 16, 14, 0, 0, 0⟩ : DateTime) ≠ ⟨2024, 1, 17, 14, 0, 0, 0⟩ :=
  ⟨rfl, rfl, by decide⟩

/-- C5 (amended): the resolver is deterministic only up to the wall clock —
for a fully absolute expression the result is independent of the instant of
the call, while relative expressions depend on it (see the
counterexample). -/
theorem resolve_absolute_expression_now_independent (now1 now2 : DateTime) :
    resolveAt now1 "2024-01-15 10:00" = resolveAt now2 "2024-01-15 10:00" :=
  rfl

/-- C7: in every submitted record the start and end `timeZone` are the same
single process-wide configuration value, `CALENDAR_TIMEZONE` with default
"UTC"; they never differ per field. -/
theorem submittedEvent_uniform_timezone (env : ToolEnv) (a : ToolArgs)
    (ev : List (String × JVal)) (hok : submittedEvent env a = .ok ev) :
    ∃ sdt edt : DateTime,
      evLookup ev "start" = some (JVal.obj
        [("dateTime", JVal.str sdt.isoformat),
         ("timeZone", JVal.str (env.calendarTimezone.getD "UTC"))]) ∧
      evLookup ev "end" = some (JVal.obj
        [("dateTime", JVal.str edt.isoformat),
         ("timeZone", JVal.str (env.calendarTimezone.getD "UTC"))]) := by
  obtain ⟨sdt, edt, hs, he, rfl⟩ := (submittedEvent_ok_iff env a ev).1 hok
  exact ⟨sdt, edt, evLookup_buildEvent_start _ _ _ _ _ _ _,
    evLookup_buildEvent_end _ _ _ _ _ _ _⟩

/-- Witness for C7: with `CALENDAR_TIMEZONE` set to "Australia/Sydney" both
`timeZone` fields of the submitted record carry that value. -/
theorem submittedEvent_uniform_timezone_witness :
    ∃ sdt edt : DateTime,
      evLookup evTz "start" = some (JVal.obj
        [("dateTime", JVal.str sdt.isoformat),
         ("timeZone", JVal.str (envTz.calendarTimezone.getD "UTC"))]) ∧
      evLookup evTz "end" = some (JVal.obj
        [("dateTime", JVal.str edt.isoformat),
         ("timeZone", JVal.str (envTz.calendarTimezone.getD "UTC"))]) :=
  submittedEvent_uniform_timezone envTz aW evTz rfl

/-- C8: a token file holding only an invalid, expired credential with a
refresh token makes `get_calendar_service` take the refresh path (not the
interactive flow) and rewrite the token file with the refreshed credential;
and on either credential-obtaining path (refresh or interactive) the new
credential is written back to the token file. -/
theorem get_calendar_service_refresh_and_persist :
    (∀ env : AuthEnv, ∀ c : Creds, env.tokenFileCreds = some c →
        c.valid = false → c.expired = true → c.refresh_token = true →
        get_calendar_service env = (env.refreshed c, some (env.refreshed c)))
    ∧ (∀ env : AuthEnv,
        (env.tokenFileCreds = none ∨
          ∃ c, env.tokenFileCreds = some c ∧ c.valid = false) →
        (get_calendar_service env).2 = some (get_calendar_service env).1) := by
  constructor
  · intro env c hc hv he hr
    unfold get_calendar_service
    rw [hc]
    simp [hv, he, hr]
  · intro env h
    unfold get_calendar_service
    rcases h with h | ⟨c, hc, hv⟩
    · rw [h]
    · rw [hc]
      simp [hv]

/-- Witness for C8: the concrete environment `authEnvW` (expired stored
credential with a refresh token) refreshes and persists the refreshed
credential. -/
theorem get_calendar_service_refresh_and_persist_witness :
    get_calendar_service authEnvW =
      (authEnvW.refreshed credOld, some (authEnvW.refreshed credOld)) ∧
    (get_calendar_service authEnvW).2 =
      some (get_calendar_service authEnvW).1 :=
  ⟨get_calendar_service_refresh_and_persist.1 authEnvW credOld rfl rfl rfl rfl,
   get_calendar_service_refresh_and_persist.2 authEnvW
     (Or.inr ⟨credOld, rfl, rfl⟩)⟩

/-- C9: every timestamp produced by `parse_natural_datetime` has second
precision — its microsecond component is zero, because the code builds
`datetime.datetime(*time_struct[:6])` and the omitted microsecond argument
defaults to 0. -/
theorem parse_natural_datetime_microsecond_zero
    (pdt : String → TimeStruct × Nat) (text : String) (dt : DateTime)
    (h : parse_natural_datetime pdt text = .ok dt) : dt.microsecond = 0 := by
  have h2 : mkDatetime (pdt text).1.tm_year (pdt text).1.tm_mon
      (pdt text).1.tm_mday (pdt text).1.tm_hour (pdt text).1.tm_min
      (pdt text).1.tm_sec = .ok dt := h
  unfold mkDatetime at h2
  split at h2
  · injection h2 with h3
    rw [← h3]
  · exact absurd h2 (by simp)

/-- Witness for C9: the concrete resolution of "2024-01-15 10:00" carries
microsecond 0. -/
theorem parse_natural_datetime_microsecond_zero_witness :
    (⟨2024, 1, 15, 10, 0, 0, 0⟩ : DateTime).microsecond = 0 :=
  parse_natural_datetime_microsecond_zero envW.pdt "2024-01-15 10:00"
    ⟨2024, 1, 15, 10, 0, 0, 0⟩ rfl

/-- C10: supplied-but-empty optional arguments behave exactly like absent
ones — each optional is tested for truthiness, so `end_time=""` defaults
the end to start + 1 hour, and `description=""`, `location=""` and
`attendees=[]` produce no keys: the whole event construction agrees with
the all-absent invocation. -/
theorem empty_optionals_behave_as_absent (env : ToolEnv) (su st : String) :
    submittedEvent env ⟨su, st, some "", some "", some "", some []⟩ =
      submittedEvent env ⟨su, st, none, none, none, none⟩ :=
  rfl

end McpCalendar
